import Mathlib

/-!
Verification of the Conjur credential manager (package `conjur`):
template-based secret-path resolution and configuration validation.

The Go source delegates template parsing and rendering to `text/template`
restricted (per the design) to a minimal interpolation language of literal
text and field references over the record `Secret {Team, Pipeline, Secret}`.
That minimal engine is embedded here: `parseTemplate` parses a template
string into nodes, `IsEmptyTree` mirrors `parse.IsEmptyTree`, and
`executeTemplate` renders nodes against a record with strict field
semantics (an unknown field is a hard error, never blank output).
-/

deriving instance DecidableEq for Except

namespace Conjur

set_option linter.dupNamespace false in
/-- The secret request record, from `type Secret struct` in the source. -/
structure Secret where
  Team : String
  Pipeline : String
  Secret : String
deriving DecidableEq, Repr

/-- A node of a parsed template: literal text or a field reference
(`\x7b\x7b.Name\x7d\x7d` in the template syntax). -/
inductive Node where
  | text (s : String)
  | field (name : String)
deriving DecidableEq, Repr

/-- The outcome of one store-client fetch, from the design
capability fetch(path) returning (value, found) or an error. -/
inductive StoreResult where
  | found (value : String)
  | notFound
  | storeError (e : String)
deriving DecidableEq, Repr

/-- Trim whitespace from both ends of a character list. -/
def trimChars (cs : List Char) : List Char :=
  ((cs.dropWhile Char.isWhitespace).reverse.dropWhile Char.isWhitespace).reverse

/-- Parse the contents of one action `\x7b\x7b ... \x7d\x7d`: after trimming
surrounding spaces it must be a dot followed by a nonempty alphanumeric
field name; anything else is a syntax error. -/
def parseAction (cs : List Char) : Except String Node :=
  match trimChars cs with
  | '.' :: name =>
      if name ≠ [] ∧ name.all Char.isAlphanum then
        Except.ok (Node.field (String.mk name))
      else
        Except.error ("bad character in action: " ++ String.mk cs)
  | _ => Except.error ("function or field expected in action: " ++ String.mk cs)

/-- Prepend a character of literal text to a node list, merging it into a
leading text node so text nodes are maximal runs, as in the Go parser. -/
def consText (c : Char) : List Node → List Node
  | Node.text s :: ns => Node.text (String.mk (c :: s.toList)) :: ns
  | ns => Node.text (String.mk [c]) :: ns

/-- Character-level template parser. The first argument is `none` in literal
text, or `some acc` inside an action with the (reversed) accumulated
action characters. An action opens at `\x7b\x7b` and closes at `\x7d\x7d`;
an unclosed action is a syntax error. -/
def parseAux : Option (List Char) → List Char → Except String (List Node)
  | none, [] => Except.ok []
  | none, '{' :: '{' :: rest => parseAux (some []) rest
  | none, c :: rest => (parseAux none rest).map (consText c)
  | some _, [] => Except.error "unclosed action"
  | some acc, '}' :: '}' :: rest => do
      let node ← parseAction acc.reverse
      let tail ← parseAux none rest
      Except.ok (node :: tail)
  | some acc, c :: rest => parseAux (some (c :: acc)) rest
termination_by structural _ cs => cs

/-- Parse a template string into its node list. -/
def parseTemplate (tmpl : String) : Except String (List Node) :=
  parseAux none tmpl.toList

/-- Mirror of `parse.IsEmptyTree`: the tree is empty when every node is whitespace-only
literal text (field references are never empty). -/
def IsEmptyTree (ns : List Node) : Bool :=
  ns.all fun n =>
    match n with
    | Node.text s => s.toList.all (fun c => c.isWhitespace)
    | Node.field _ => false

/-- Field lookup on the `Secret` record, as reflection does for the three
exported struct fields; any other name has no field. -/
def lookupField (f : String) (s : Secret) : Option String :=
  if f = "Team" then some s.Team
  else if f = "Pipeline" then some s.Pipeline
  else if f = "Secret" then some s.Secret
  else none

/-- Render a node list against a record. Literal text is emitted verbatim,
a known field emits its value, and an unknown field is a hard execution
error (strict-field semantics, `missingkey=error`). -/
def executeTemplate : List Node → Secret → Except String String
  | [], _ => Except.ok ""
  | Node.text t :: ns, s => (executeTemplate ns s).map (fun r => t ++ r)
  | Node.field f :: ns, s =>
      match lookupField f s with
      | some v => (executeTemplate ns s).map (fun r => v ++ r)
      | none => Except.error ("cannot evaluate field ." ++ f ++ " in type conjur.Secret")

/-- Embedding of `buildSecretTemplate` from the source: parse the template (the name is
kept for diagnostics) and reject a template whose parse tree is empty. -/
def buildSecretTemplate (name tmpl : String) : Except String (List Node) :=
  match parseTemplate tmpl with
  | Except.error e => Except.error ("template: " ++ name ++ ": " ++ e)
  | Except.ok t =>
      if IsEmptyTree t then Except.error "secret template should not be empty"
      else Except.ok t

/-- Constant `DefaultPipelineSecretTemplate` from the source. -/
def DefaultPipelineSecretTemplate : String :=
  "/concourse/\x7b\x7b.Team\x7d\x7d/\x7b\x7b.Pipeline\x7d\x7d/\x7b\x7b.Secret\x7d\x7d"

/-- Constant `DefaultTeamSecretTemplate` from the source. -/
def DefaultTeamSecretTemplate : String :=
  "/concourse/\x7b\x7b.Team\x7d\x7d/\x7b\x7b.Secret\x7d\x7d"

/-- The manager configuration, from `type Manager struct`. The external
client handle `Conjur` is opaque; only whether it has been set matters. -/
structure Manager where
  ConjurApplianceUrl : String
  ConjurAccount : String
  ConjurCertFile : String
  ConjurAuthnLogin : String
  ConjurAuthnApiKey : String
  PipelineSecretTemplate : String
  TeamSecretTemplate : String
  Conjur : Option Unit
deriving DecidableEq, Repr

/-- The synthetic record `dummy` built inside `Manager.Validate`. -/
def dummy : Secret := { Team := "team", Pipeline := "pipeline", Secret := "secret" }

/-- Embedding of `Manager.IsConfigured` from the source. -/
def Manager.IsConfigured (m : Manager) : Bool :=
  m.ConjurApplianceUrl != ""

/-- Embedding of `Manager.Validate` from the source. The Go method has a pointer
receiver, so the embedding returns the receiver state next to the result;
every `return` site of the method pairs its error or nil with the receiver. -/
def Manager.Validate (m : Manager) : Manager × Except String Unit :=
  match buildSecretTemplate "pipeline-secret-template" m.PipelineSecretTemplate with
  | Except.error e => (m, Except.error e)
  | Except.ok pipelineSecretTemplate =>
    match buildSecretTemplate "team-secret-template" m.TeamSecretTemplate with
    | Except.error e => (m, Except.error e)
    | Except.ok teamSecretTemplate =>
      match executeTemplate pipelineSecretTemplate dummy with
      | Except.error e => (m, Except.error e)
      | Except.ok _ =>
        match executeTemplate teamSecretTemplate dummy with
        | Except.error e => (m, Except.error e)
        | Except.ok _ =>
          if m.ConjurApplianceUrl = "" ∧ m.ConjurAccount = "" ∧
              m.ConjurAuthnLogin = "" ∧ m.ConjurAuthnApiKey = "" then
            (m, Except.ok ())
          else if m.ConjurAuthnLogin = "" then
            (m, Except.error "must provide conjur authn login")
          else if m.ConjurAuthnApiKey = "" then
            (m, Except.error "must provide conjur authn key")
          else if m.ConjurApplianceUrl = "" then
            (m, Except.error "must provide conjur appliance url")
          else if m.ConjurAccount = "" then
            (m, Except.error "must provide conjur account")
          else
            (m, Except.ok ())

/-- Render success test, used to phrase "the templates pass". -/
def isOkRender : Except String String → Bool
  | Except.ok _ => true
  | Except.error _ => false

/-- Both templates of a configuration compile and execute on the synthetic
record: the template half of `Validate` succeeds. -/
def Manager.templatesOk (m : Manager) : Bool :=
  match buildSecretTemplate "pipeline-secret-template" m.PipelineSecretTemplate,
      buildSecretTemplate "team-secret-template" m.TeamSecretTemplate with
  | Except.ok pt, Except.ok tt =>
      isOkRender (executeTemplate pt dummy) && isOkRender (executeTemplate tt dummy)
  | _, _ => false

/-- Embedding of `Manager.NewSecretsFactory` from the source, restricted to the ordered
template list it hands to the factory (client construction belongs to the
external collaborator). The pipeline-scoped template is placed before the
team-scoped one. -/
def Manager.NewSecretsFactory (m : Manager) : Except String (List (List Node)) :=
  match buildSecretTemplate "pipeline-secret-template" m.PipelineSecretTemplate with
  | Except.error e => Except.error e
  | Except.ok pipelineSecretTemplate =>
    match buildSecretTemplate "team-secret-template" m.TeamSecretTemplate with
    | Except.error e => Except.error e
    | Except.ok teamSecretTemplate =>
      Except.ok [pipelineSecretTemplate, teamSecretTemplate]

/-- Modelled from the spec: the precedence list of the Secret Resolver (§4.4) —
the resolver code itself is outside the sources at hand. The
pipeline-scoped template applies only when the request field `Pipeline` is
non-empty; the team-scoped template always applies. -/
def candidates (req : Secret) (pipelineTmpl teamTmpl : List Node) : List (List Node) :=
  if req.Pipeline ≠ "" then [pipelineTmpl, teamTmpl] else [teamTmpl]

/-- Modelled from the spec: the Secret Resolver loop (§4.4), over the
candidate list. For each candidate in order: render (a render failure
aborts), query the store, stop on a value or a transport error, fall
through to the next candidate on not-found. Returns the outcome together
with the queried paths in query order; `Except.ok (some v)` is found and
`Except.ok none` is exhausted-not-found. -/
def resolveList : List (List Node) → Secret → (String → StoreResult) →
    Except String (Option String) × List String
  | [], _, _ => (Except.ok none, [])
  | t :: ts, req, store =>
    match executeTemplate t req with
    | Except.error e => (Except.error e, [])
    | Except.ok path =>
      match store path with
      | StoreResult.found v => (Except.ok (some v), [path])
      | StoreResult.storeError e => (Except.error e, [path])
      | StoreResult.notFound =>
          let rest := resolveList ts req store
          (rest.1, path :: rest.2)

/-- Modelled from the spec: `resolve(request, compiledTemplates, storeClient)`
over the two compiled templates. -/
def resolve (req : Secret) (pipelineTmpl teamTmpl : List Node)
    (store : String → StoreResult) : Except String (Option String) × List String :=
  resolveList (candidates req pipelineTmpl teamTmpl) req store

/-- Parse tree of `DefaultPipelineSecretTemplate`. -/
def defaultPipelineNodes : List Node :=
  [Node.text "/concourse/", Node.field "Team", Node.text "/", Node.field "Pipeline",
    Node.text "/", Node.field "Secret"]

/-- Parse tree of `DefaultTeamSecretTemplate`. -/
def defaultTeamNodes : List Node :=
  [Node.text "/concourse/", Node.field "Team", Node.text "/", Node.field "Secret"]

/-- A configuration with the default templates and every credential field
empty: the "disabled" configuration. -/
def emptyManager : Manager :=
  { ConjurApplianceUrl := "", ConjurAccount := "", ConjurCertFile := "",
    ConjurAuthnLogin := "", ConjurAuthnApiKey := "",
    PipelineSecretTemplate := DefaultPipelineSecretTemplate,
    TeamSecretTemplate := DefaultTeamSecretTemplate, Conjur := none }

/-- The configuration `emptyManager` with only the appliance URL set. -/
def urlOnlyManager : Manager :=
  { emptyManager with ConjurApplianceUrl := "https://conjur.example.com" }

/-- A record with no empty field, used to separate always-empty output from
empty parse trees. -/
def allX : Secret := { Team := "x", Pipeline := "x", Secret := "x" }

/-- Decidable form of "every field reference is one of the three record
fields". -/
def onlyKnownFields (ns : List Node) : Bool :=
  ns.all fun n =>
    match n with
    | Node.text _ => true
    | Node.field f => (f == "Team") || (f == "Pipeline") || (f == "Secret")

/-- The configuration `emptyManager` with only the authn login set. -/
def loginOnlyManager : Manager :=
  { emptyManager with ConjurAuthnLogin := "host/concourse" }

/-- The configuration `loginOnlyManager` with an always-empty pipeline template: its template
check fails while its credential check would also fail. -/
def badPipelineManager : Manager :=
  { loginOnlyManager with PipelineSecretTemplate := "" }

/-- A store with a value only at the team-scoped path of
`(t1, p1, s1)`; every other path is absent. -/
def fallbackStore : String → StoreResult := fun p =>
  if p = "/concourse/t1/s1" then StoreResult.found "val" else StoreResult.notFound

end Conjur

namespace Conjur

/-- A string concatenation is empty only when both halves are. -/
theorem append_eq_empty {s t : String} (h : s ++ t = "") : s = "" ∧ t = "" := by
  cases s with
  | mk a =>
    cases t with
    | mk b =>
      have h2 : a ++ b = [] := congrArg String.data h
      rcases List.append_eq_nil.mp h2 with ⟨ha, hb⟩
      subst ha; subst hb; exact ⟨rfl, rfl⟩

/-- On the all-nonempty record, a successful field lookup yields `"x"`. -/
theorem lookup_allX {f : String} {v : String} (h : lookupField f allX = some v) :
    v = "x" := by
  unfold lookupField allX at h
  split at h
  · exact (Option.some.inj h).symm
  · split at h
    · exact (Option.some.inj h).symm
    · split at h
      · exact (Option.some.inj h).symm
      · cases h

/-- A template that renders to the empty string on the all-nonempty record
has an empty parse tree. -/
theorem isEmptyTree_of_exec_empty :
    ∀ ns : List Node, executeTemplate ns allX = Except.ok "" → IsEmptyTree ns = true := by
  intro ns
  induction ns with
  | nil => intro _; rfl
  | cons n ns ih =>
    intro h
    cases n with
    | text t =>
      cases hrec : executeTemplate ns allX with
      | error e => simp [executeTemplate, hrec, Except.map] at h
      | ok r =>
        simp only [executeTemplate, hrec, Except.map, Except.ok.injEq] at h
        rcases append_eq_empty h with ⟨ht, hr⟩
        subst ht; subst hr
        simpa [IsEmptyTree] using ih hrec
    | field g =>
      cases hlg : lookupField g allX with
      | none => simp [executeTemplate, hlg] at h
      | some v =>
        cases hrec : executeTemplate ns allX with
        | error e => simp [executeTemplate, hlg, hrec, Except.map] at h
        | ok r =>
          simp only [executeTemplate, hlg, hrec, Except.map, Except.ok.injEq] at h
          rcases append_eq_empty h with ⟨hv, _⟩
          rw [lookup_allX hlg] at hv
          exact absurd hv (by decide)

/-- Rendering a node list that references a field missing from the record
fails. -/
theorem exec_error_of_unknown (s : Secret) (f : String)
    (hf : lookupField f s = none) :
    ∀ ns : List Node, Node.field f ∈ ns → ∃ e, executeTemplate ns s = Except.error e := by
  intro ns
  induction ns with
  | nil => intro hmem; cases hmem
  | cons n ns ih =>
    intro hmem
    cases n with
    | text t =>
      have hmem2 : Node.field f ∈ ns := by
        rcases List.mem_cons.mp hmem with h1 | h2
        · cases h1
        · exact h2
      rcases ih hmem2 with ⟨e, he⟩
      exact ⟨e, by simp [executeTemplate, he, Except.map]⟩
    | field g =>
      rcases List.mem_cons.mp hmem with h1 | h2
      · cases h1
        exact ⟨"cannot evaluate field ." ++ f ++ " in type conjur.Secret",
          by simp [executeTemplate, hf]⟩
      · cases hlg : lookupField g s with
        | none =>
          exact ⟨"cannot evaluate field ." ++ g ++ " in type conjur.Secret",
            by simp [executeTemplate, hlg]⟩
        | some v =>
          rcases ih h2 with ⟨e, he⟩
          exact ⟨e, by simp [executeTemplate, hlg, he, Except.map]⟩

/-- Rendering a node list whose field references all resolve on the record
succeeds. -/
theorem exec_ok_of_known (s : Secret) :
    ∀ ns : List Node, (∀ f, Node.field f ∈ ns → lookupField f s ≠ none) →
      ∃ out, executeTemplate ns s = Except.ok out := by
  intro ns
  induction ns with
  | nil => intro _; exact ⟨"", rfl⟩
  | cons n ns ih =>
    intro hall
    have hall2 : ∀ f, Node.field f ∈ ns → lookupField f s ≠ none :=
      fun f hf => hall f (List.mem_cons_of_mem _ hf)
    rcases ih hall2 with ⟨out, hout⟩
    cases n with
    | text t => exact ⟨t ++ out, by simp [executeTemplate, hout, Except.map]⟩
    | field g =>
      cases hlg : lookupField g s with
      | none => exact absurd hlg (hall g (List.mem_cons_self _ _))
      | some v => exact ⟨v ++ out, by simp [executeTemplate, hlg, hout, Except.map]⟩

/-- C3: for all template strings whose parse succeeds, when the rendered
output is empty for every possible input, `buildSecretTemplate` rejects the
template with the empty-template error; in particular the parse tree of
such a template carries no output nodes and is rejected at compile time. -/
theorem compile_rejects_always_empty (name tmpl : String) (ns : List Node)
    (hparse : parseTemplate tmpl = Except.ok ns)
    (hempty : ∀ s : Secret, executeTemplate ns s = Except.ok "") :
    IsEmptyTree ns = true ∧
      buildSecretTemplate name tmpl = Except.error "secret template should not be empty" := by
  have he : IsEmptyTree ns = true := isEmptyTree_of_exec_empty ns (hempty allX)
  refine ⟨he, ?_⟩
  unfold buildSecretTemplate
  rw [hparse]
  simp [he]

/-- Witness for C3 at the always-empty template `""`. -/
theorem compile_rejects_always_empty_witness :
    parseTemplate "" = Except.ok [] ∧
    (∀ s : Secret, executeTemplate [] s = Except.ok "") ∧
    buildSecretTemplate "pipeline-secret-template" "" =
      Except.error "secret template should not be empty" :=
  ⟨rfl, fun _ => rfl,
    (compile_rejects_always_empty "pipeline-secret-template" "" [] rfl (fun _ => rfl)).2⟩

/-- C4: a compiled template that references a field outside
`Team`/`Pipeline`/`Secret` is a hard error: executing it against the
synthetic record fails, and a manager carrying it as its pipeline template
fails `Validate`; it is never silently rendered as empty output. -/
theorem unknown_field_is_hard_error (ns : List Node) (f : String)
    (hmem : Node.field f ∈ ns)
    (hf : f ≠ "Team" ∧ f ≠ "Pipeline" ∧ f ≠ "Secret") :
    (∃ e, executeTemplate ns dummy = Except.error e) ∧
    ∀ m : Manager,
      buildSecretTemplate "pipeline-secret-template" m.PipelineSecretTemplate = Except.ok ns →
      ∃ e, (m.Validate).2 = Except.error e := by
  have hlf : lookupField f dummy = none := by
    rcases hf with ⟨h1, h2, h3⟩
    simp [lookupField, h1, h2, h3]
  have hexec := exec_error_of_unknown dummy f hlf ns hmem
  refine ⟨hexec, ?_⟩
  intro m hbuild
  rcases hexec with ⟨e0, he0⟩
  cases hteam : buildSecretTemplate "team-secret-template" m.TeamSecretTemplate with
  | error e => exact ⟨e, by simp [Manager.Validate, hbuild, hteam]⟩
  | ok tt => exact ⟨e0, by simp [Manager.Validate, hbuild, hteam, he0]⟩

/-- Witness for C4 at the template node list referencing the field `Foo`. -/
theorem unknown_field_is_hard_error_witness :
    (Node.field "Foo" ∈ [Node.field "Foo"]) ∧
    ("Foo" ≠ "Team" ∧ "Foo" ≠ "Pipeline" ∧ "Foo" ≠ "Secret") ∧
    ∃ e, executeTemplate [Node.field "Foo"] dummy = Except.error e :=
  ⟨by decide, by decide,
    (unknown_field_is_hard_error [Node.field "Foo"] "Foo" (by decide) (by decide)).1⟩

/-- C7: a compiled template referencing only `Team`, `Pipeline` and
`Secret` validates: executing it against the synthetic record (whose three
fields are non-empty) produces no error. -/
theorem known_fields_validate_ok (ns : List Node)
    (hall : onlyKnownFields ns = true) :
    ∃ out, executeTemplate ns dummy = Except.ok out := by
  apply exec_ok_of_known
  intro f hf
  have hp := List.all_eq_true.mp hall _ hf
  simp only [beq_iff_eq, Bool.or_eq_true] at hp
  rcases hp with (h | h) | h <;> simp [lookupField, h]

/-- Witness for C7 at the parse tree of the default pipeline template. -/
theorem known_fields_validate_ok_witness :
    onlyKnownFields defaultPipelineNodes = true ∧
    ∃ out, executeTemplate defaultPipelineNodes dummy = Except.ok out :=
  ⟨by decide, known_fields_validate_ok defaultPipelineNodes (by decide)⟩

/-- Unpack `templatesOk`: both templates compile and render on the
synthetic record. -/
theorem templatesOk_elim {m : Manager} (h : m.templatesOk = true) :
    ∃ pt tt o1 o2,
      buildSecretTemplate "pipeline-secret-template" m.PipelineSecretTemplate = Except.ok pt ∧
      buildSecretTemplate "team-secret-template" m.TeamSecretTemplate = Except.ok tt ∧
      executeTemplate pt dummy = Except.ok o1 ∧ executeTemplate tt dummy = Except.ok o2 := by
  unfold Manager.templatesOk at h
  cases hb1 : buildSecretTemplate "pipeline-secret-template" m.PipelineSecretTemplate with
  | error e => rw [hb1] at h; cases h
  | ok pt =>
    cases hb2 : buildSecretTemplate "team-secret-template" m.TeamSecretTemplate with
    | error e => rw [hb1, hb2] at h; cases h
    | ok tt =>
      rw [hb1, hb2] at h
      have h2 : (isOkRender (executeTemplate pt dummy) &&
          isOkRender (executeTemplate tt dummy)) = true := h
      cases he1 : executeTemplate pt dummy with
      | error e => rw [he1] at h2; simp [isOkRender] at h2
      | ok o1 =>
        cases he2 : executeTemplate tt dummy with
        | error e => rw [he1, he2] at h2; simp [isOkRender] at h2
        | ok o2 => exact ⟨pt, tt, o1, o2, rfl, rfl, he1, he2⟩

/-- When both templates pass, `Validate` reduces to the credential phase:
the all-empty test and then the four field checks in source order. -/
theorem validate_creds_phase {m : Manager} {pt tt : List Node} {o1 o2 : String}
    (hb1 : buildSecretTemplate "pipeline-secret-template" m.PipelineSecretTemplate = Except.ok pt)
    (hb2 : buildSecretTemplate "team-secret-template" m.TeamSecretTemplate = Except.ok tt)
    (he1 : executeTemplate pt dummy = Except.ok o1)
    (he2 : executeTemplate tt dummy = Except.ok o2) :
    (m.Validate).2 =
      (if m.ConjurApplianceUrl = "" ∧ m.ConjurAccount = "" ∧
          m.ConjurAuthnLogin = "" ∧ m.ConjurAuthnApiKey = "" then Except.ok ()
       else if m.ConjurAuthnLogin = "" then Except.error "must provide conjur authn login"
       else if m.ConjurAuthnApiKey = "" then Except.error "must provide conjur authn key"
       else if m.ConjurApplianceUrl = "" then Except.error "must provide conjur appliance url"
       else if m.ConjurAccount = "" then Except.error "must provide conjur account"
       else Except.ok ()) := by
  simp only [Manager.Validate, hb1, hb2, he1, he2, apply_ite (f := Prod.snd)]

/-- C2: with both templates passing and the four credential fields not all
empty, `Validate` returns the error naming the first missing field in the
order login, api key, appliance URL, account, and succeeds when none of
the four is missing. -/
theorem validate_first_missing_field (m : Manager)
    (htpl : m.templatesOk = true)
    (hne : ¬(m.ConjurApplianceUrl = "" ∧ m.ConjurAccount = "" ∧
        m.ConjurAuthnLogin = "" ∧ m.ConjurAuthnApiKey = "")) :
    (m.Validate).2 =
      (if m.ConjurAuthnLogin = "" then Except.error "must provide conjur authn login"
       else if m.ConjurAuthnApiKey = "" then Except.error "must provide conjur authn key"
       else if m.ConjurApplianceUrl = "" then Except.error "must provide conjur appliance url"
       else if m.ConjurAccount = "" then Except.error "must provide conjur account"
       else Except.ok ()) := by
  rcases templatesOk_elim htpl with ⟨pt, tt, o1, o2, hb1, hb2, he1, he2⟩
  rw [validate_creds_phase hb1 hb2 he1 he2, if_neg hne]

/-- Witness for C2 at a configuration with only the login set: the first
missing field in order is the api key. -/
theorem validate_first_missing_field_witness :
    loginOnlyManager.templatesOk = true ∧
    ¬(loginOnlyManager.ConjurApplianceUrl = "" ∧ loginOnlyManager.ConjurAccount = "" ∧
        loginOnlyManager.ConjurAuthnLogin = "" ∧ loginOnlyManager.ConjurAuthnApiKey = "") ∧
    (loginOnlyManager.Validate).2 = Except.error "must provide conjur authn key" :=
  ⟨by decide, by decide, by
    rw [validate_first_missing_field loginOnlyManager (by decide) (by decide)]
    decide⟩

/-- C5: with both templates passing and all four credential fields empty,
`Validate` accepts the configuration as not in use. -/
theorem validate_all_empty_ok (m : Manager)
    (htpl : m.templatesOk = true)
    (hempty : m.ConjurApplianceUrl = "" ∧ m.ConjurAccount = "" ∧
      m.ConjurAuthnLogin = "" ∧ m.ConjurAuthnApiKey = "") :
    (m.Validate).2 = Except.ok () := by
  rcases templatesOk_elim htpl with ⟨pt, tt, o1, o2, hb1, hb2, he1, he2⟩
  rw [validate_creds_phase hb1 hb2 he1 he2, if_pos hempty]

/-- Witness for C5 at the all-empty configuration with default templates. -/
theorem validate_all_empty_ok_witness :
    emptyManager.templatesOk = true ∧
    (emptyManager.ConjurApplianceUrl = "" ∧ emptyManager.ConjurAccount = "" ∧
      emptyManager.ConjurAuthnLogin = "" ∧ emptyManager.ConjurAuthnApiKey = "") ∧
    (emptyManager.Validate).2 = Except.ok () :=
  ⟨by decide, by decide, validate_all_empty_ok emptyManager (by decide) (by decide)⟩

/-- C6: `Validate` checks the templates before any credential check and a
template failure short-circuits, in source order: pipeline compile, team
compile, pipeline execution, team execution; the failure is returned for
every credential configuration. -/
theorem validate_template_short_circuit (m : Manager) :
    (∀ e, buildSecretTemplate "pipeline-secret-template" m.PipelineSecretTemplate =
        Except.error e → (m.Validate).2 = Except.error e) ∧
    (∀ pt e, buildSecretTemplate "pipeline-secret-template" m.PipelineSecretTemplate =
        Except.ok pt →
      buildSecretTemplate "team-secret-template" m.TeamSecretTemplate = Except.error e →
      (m.Validate).2 = Except.error e) ∧
    (∀ pt tt e, buildSecretTemplate "pipeline-secret-template" m.PipelineSecretTemplate =
        Except.ok pt →
      buildSecretTemplate "team-secret-template" m.TeamSecretTemplate = Except.ok tt →
      executeTemplate pt dummy = Except.error e → (m.Validate).2 = Except.error e) ∧
    (∀ pt tt o1 e, buildSecretTemplate "pipeline-secret-template" m.PipelineSecretTemplate =
        Except.ok pt →
      buildSecretTemplate "team-secret-template" m.TeamSecretTemplate = Except.ok tt →
      executeTemplate pt dummy = Except.ok o1 → executeTemplate tt dummy = Except.error e →
      (m.Validate).2 = Except.error e) := by
  refine ⟨?_, ?_, ?_, ?_⟩ <;> intros <;> simp [Manager.Validate, *]

/-- Witness for C6 at a configuration whose pipeline template is empty and
whose credentials are partial: the template error is returned, not the
credential error. -/
theorem validate_template_short_circuit_witness :
    buildSecretTemplate "pipeline-secret-template" badPipelineManager.PipelineSecretTemplate =
      Except.error "secret template should not be empty" ∧
    (badPipelineManager.Validate).2 = Except.error "secret template should not be empty" :=
  ⟨by decide, (validate_template_short_circuit badPipelineManager).1 _ (by decide)⟩

/-- C9: `Validate` never mutates its receiver: the manager state after the
call equals the state before it, on every path, error or ok. -/
theorem validate_preserves_manager (m : Manager) : (m.Validate).1 = m := by
  unfold Manager.Validate
  repeat' split
  all_goals rfl

/-- C10: `IsConfigured` holds exactly when the appliance URL is non-empty;
the all-empty configuration that `Validate` accepts reports not
configured, while a URL-only configuration reports configured even though
`Validate` rejects it. -/
theorem isConfigured_iff_appliance_url :
    (∀ m : Manager, m.IsConfigured = true ↔ m.ConjurApplianceUrl ≠ "") ∧
    (emptyManager.IsConfigured = false ∧ (emptyManager.Validate).2 = Except.ok ()) ∧
    (urlOnlyManager.IsConfigured = true ∧
      (urlOnlyManager.Validate).2 = Except.error "must provide conjur authn login") := by
  refine ⟨?_, ⟨by decide, by decide⟩, ⟨by decide, by decide⟩⟩
  intro m
  simp [Manager.IsConfigured, bne_iff_ne]

/-- C1: with the default templates, `NewSecretsFactory` places the
pipeline-scoped template before the team-scoped one, and for the request
`(t1, p1, s1)` every resolution queries `/concourse/t1/p1/s1` first and
`/concourse/t1/s1`, if at all, second. -/
theorem resolution_precedence_pipeline_first :
    emptyManager.NewSecretsFactory = Except.ok [defaultPipelineNodes, defaultTeamNodes] ∧
    ∀ store : String → StoreResult,
      (resolve ⟨"t1", "p1", "s1"⟩ defaultPipelineNodes defaultTeamNodes store).2 =
          ["/concourse/t1/p1/s1"] ∨
      (resolve ⟨"t1", "p1", "s1"⟩ defaultPipelineNodes defaultTeamNodes store).2 =
          ["/concourse/t1/p1/s1", "/concourse/t1/s1"] := by
  refine ⟨by decide, ?_⟩
  intro store
  have hp : executeTemplate defaultPipelineNodes ⟨"t1", "p1", "s1"⟩ =
      Except.ok "/concourse/t1/p1/s1" := by decide
  have ht : executeTemplate defaultTeamNodes ⟨"t1", "p1", "s1"⟩ =
      Except.ok "/concourse/t1/s1" := by decide
  have hc : candidates ⟨"t1", "p1", "s1"⟩ defaultPipelineNodes defaultTeamNodes =
      [defaultPipelineNodes, defaultTeamNodes] := by decide
  unfold resolve
  rw [hc]
  cases hres : store "/concourse/t1/p1/s1" with
  | found v => left; simp [resolveList, hp, hres]
  | storeError e => left; simp [resolveList, hp, hres]
  | notFound =>
    right
    cases hres2 : store "/concourse/t1/s1" with
    | found v => simp [resolveList, hp, ht, hres, hres2]
    | storeError e => simp [resolveList, hp, ht, hres, hres2]
    | notFound => simp [resolveList, hp, ht, hres, hres2]

/-- Rendering the default pipeline template against any request. -/
theorem exec_default_pipeline (req : Secret) :
    executeTemplate defaultPipelineNodes req =
      Except.ok ("/concourse/" ++ req.Team ++ "/" ++ req.Pipeline ++ "/" ++ req.Secret) := by
  simp [executeTemplate, defaultPipelineNodes, lookupField, Except.map,
    String.append_assoc, String.append_empty]

/-- Rendering the default team template against any request. -/
theorem exec_default_team (req : Secret) :
    executeTemplate defaultTeamNodes req =
      Except.ok ("/concourse/" ++ req.Team ++ "/" ++ req.Secret) := by
  simp [executeTemplate, defaultTeamNodes, lookupField, Except.map,
    String.append_assoc, String.append_empty]

/-- C8: with a non-empty pipeline in the request, a store that misses the
pipeline-scoped path but holds a value at the team-scoped path makes
resolution return that value (found). -/
theorem resolve_fallback_to_team (req : Secret) (store : String → StoreResult) (v : String)
    (hpipe : req.Pipeline ≠ "")
    (hnf : store ("/concourse/" ++ req.Team ++ "/" ++ req.Pipeline ++ "/" ++ req.Secret) =
      StoreResult.notFound)
    (hfound : store ("/concourse/" ++ req.Team ++ "/" ++ req.Secret) = StoreResult.found v) :
    (resolve req defaultPipelineNodes defaultTeamNodes store).1 = Except.ok (some v) := by
  unfold resolve candidates
  rw [if_pos hpipe]
  simp [resolveList, exec_default_pipeline req, exec_default_team req, hnf, hfound]

/-- Witness for C8 at the request `(t1, p1, s1)` and `fallbackStore`. -/
theorem resolve_fallback_to_team_witness :
    (Secret.mk "t1" "p1" "s1").Pipeline ≠ "" ∧
    fallbackStore ("/concourse/" ++ "t1" ++ "/" ++ "p1" ++ "/" ++ "s1") =
      StoreResult.notFound ∧
    fallbackStore ("/concourse/" ++ "t1" ++ "/" ++ "s1") = StoreResult.found "val" ∧
    (resolve ⟨"t1", "p1", "s1"⟩ defaultPipelineNodes defaultTeamNodes fallbackStore).1 =
      Except.ok (some "val") :=
  ⟨by decide, by decide, by decide,
    resolve_fallback_to_team ⟨"t1", "p1", "s1"⟩ fallbackStore "val"
      (by decide) (by decide) (by decide)⟩

end Conjur
